import Mathlib

/-!
Verification of the workflow-graph examples in `langgraph_workflows`.

The repository wires node functions, routers and edges into graphs executed
by an external workflow-graph engine.  Node functions and routers below are
translated from the Python sources under `src/langgraph_workflows/`; the
engine itself (state merging, conditional dispatch, fan-out, error
propagation) is not part of the repository, so the run drivers are modelled
from the specification's Run Executor (spec section 4.2), instantiated at
each example's graph.

LLM calls are external collaborators: each workflow takes an environment of
oracle functions standing for the (structured-output) LLM clients.  Each
Python module is embedded in its own namespace, mirroring the module files.
-/

set_option autoImplicit false

namespace LanggraphWorkflows

/-- The terminal marker (`END` in the source's graph library). -/
def END_MARKER : String := "__end__"

/-- Run-time engine errors, from spec section 7.  `routerError` is raised when a
router's return value is absent from its route map; `unknownNode` when an edge
targets an unregistered node (lazy validation, spec section 4.1). -/
inductive EngineError where
  | routerError
  | unknownNode
deriving Repr, DecidableEq

/-- Chat messages passed to the LLM collaborators (`SystemMessage`,
`HumanMessage` from the source's message library; only the content is
relevant to the workflows). -/
inductive ChatMessage where
  | systemMsg (content : String)
  | humanMsg (content : String)
deriving Repr, DecidableEq

/-- Modelled from the spec: a conditional edge translates the router's return
value through the route map; a return value absent from the map (including
Python's implicit `None`) raises `RouterError` (spec sections 4.2 step 3c
and 7). -/
def resolveRoute (routeMap : List (String × String)) :
    Option String → Except EngineError String
  | none => .error .routerError
  | some label =>
    match routeMap.lookup label with
    | some dest => .ok dest
    | none => .error .routerError

/-- Modelled from the spec: tag each spawned branch's partial update with its
spawn index, listed in completion order (`schedule` lists the spawn indices in
the order the branches happen to finish); the engine later merges them in
spawn order (spec section 5). -/
def tagResults {υ : Type} (g : Nat → Option υ) (schedule : List Nat) :
    List (Nat × υ) :=
  schedule.filterMap (fun i => (g i).map (fun u => (i, u)))

namespace RoutingWorkflow

/-! ## Routing workflow (`routing_workflow.py`) -/

/-- Structured output schema `RouteOutput` (routing_workflow.py lines 7-10):
a single `step` field.  The Python type annotates it with
`Literal["poem", "story", "joke"]`, but the value is produced by the external
structured-output decoder, so the model keeps it as an arbitrary string. -/
structure RouteOutput where
  step : String
deriving Repr, DecidableEq

/-- Source `RoutingWorkflowState` (routing_workflow.py lines 12-15). -/
structure RoutingWorkflowState where
  user_input : String
  routing_decision : String
  final_output : String
deriving Repr, DecidableEq

/-- A partial update to `RoutingWorkflowState`: the sub-mapping of fields a
node changes (spec section 3, Node). -/
structure RoutingUpdate where
  user_input : Option String := none
  routing_decision : Option String := none
  final_output : Option String := none
deriving Repr

/-- Modelled from the spec: merging a partial update into the state.  Every
field of `RoutingWorkflowState` has the *replace* policy (plain `str` fields,
no reducer annotation in the source). -/
def RoutingWorkflowState.merge (s : RoutingWorkflowState) (u : RoutingUpdate) :
    RoutingWorkflowState :=
  { user_input := u.user_input.getD s.user_input
    routing_decision := u.routing_decision.getD s.routing_decision
    final_output := u.final_output.getD s.final_output }

/-- The LLM collaborators of the routing workflow: `routing_llm` is the
structured-output client (`llm.with_structured_output(RouteOutput)`), `llm`
the plain client invoked on a prompt string, returning the response content. -/
structure RoutingEnv where
  routing_llm : List ChatMessage → RouteOutput
  llm : String → String

/-- Source `route_input` (routing_workflow.py lines 21-27). -/
def route_input (env : RoutingEnv) (s : RoutingWorkflowState) : RoutingUpdate :=
  let decision := env.routing_llm
    [ChatMessage.systemMsg
       "Based on the user's request, decide whether to generate a story, joke, or poem.",
     ChatMessage.humanMsg s.user_input]
  { routing_decision := some decision.step }

/-- Source `generate_story_output` (routing_workflow.py lines 29-32). -/
def generate_story_output (env : RoutingEnv) (s : RoutingWorkflowState) : RoutingUpdate :=
  { final_output := some (env.llm ("Write a story based on: " ++ s.user_input)) }

/-- Source `generate_joke_output` (routing_workflow.py lines 34-37). -/
def generate_joke_output (env : RoutingEnv) (s : RoutingWorkflowState) : RoutingUpdate :=
  { final_output := some (env.llm ("Write a joke based on: " ++ s.user_input)) }

/-- Source `generate_poem_output` (routing_workflow.py lines 39-42). -/
def generate_poem_output (env : RoutingEnv) (s : RoutingWorkflowState) : RoutingUpdate :=
  { final_output := some (env.llm ("Write a poem based on: " ++ s.user_input)) }

/-- Source `decide_next_node` (routing_workflow.py lines 44-52).  The Python function
falls off the end (returns `None`) when `routing_decision` matches no branch;
the model returns `none` there. -/
def decide_next_node (s : RoutingWorkflowState) : Option String :=
  let decision := s.routing_decision
  if decision = "story" then some "generate_story_output"
  else if decision = "joke" then some "generate_joke_output"
  else if decision = "poem" then some "generate_poem_output"
  else none

/-- The route map of the routing workflow's conditional edge
(routing_workflow.py lines 66-71): each label maps to the node of the same
name. -/
def routing_route_map : List (String × String) :=
  [("generate_story_output", "generate_story_output"),
   ("generate_joke_output", "generate_joke_output"),
   ("generate_poem_output", "generate_poem_output")]

/-- The registered generator nodes of the routing workflow, by identifier
(routing_workflow.py lines 58-61; `route_input` is invoked directly by the
driver as the entry node's successor). -/
def routing_nodes (env : RoutingEnv) (id : String) :
    Option (RoutingWorkflowState → RoutingUpdate) :=
  if id = "generate_story_output" then some (generate_story_output env)
  else if id = "generate_joke_output" then some (generate_joke_output env)
  else if id = "generate_poem_output" then some (generate_poem_output env)
  else none

/-- Modelled from the spec: the Run Executor (spec section 4.2) driving the
graph built in `run_routing_workflow` (routing_workflow.py lines 54-77):
START → `route_input` → conditional edge (`decide_next_node` translated
through `routing_route_map`) → the selected generator → END.  Returns the
final state together with the trace of executed node identifiers, in
execution order. -/
def run_routing_workflow (env : RoutingEnv) (s0 : RoutingWorkflowState) :
    Except EngineError (RoutingWorkflowState × List String) := do
  let s1 := s0.merge (route_input env s0)
  let dest ← resolveRoute routing_route_map (decide_next_node s1)
  match routing_nodes env dest with
  | some f =>
    let s2 := s1.merge (f s1)
    .ok (s2, ["route_input", dest])
  | none => .error .unknownNode

end RoutingWorkflow

namespace ParallelWorkflow

/-! ## Parallel workflow (`parallel_workflow.py`) -/

/-- Source `ParallelWorkflowState` (parallel_workflow.py lines 5-10). -/
structure ParallelWorkflowState where
  topic : String
  joke : String
  story : String
  poem : String
  combined_output : String
deriving Repr, DecidableEq

/-- A partial update to `ParallelWorkflowState`. -/
structure ParallelUpdate where
  topic : Option String := none
  joke : Option String := none
  story : Option String := none
  poem : Option String := none
  combined_output : Option String := none
deriving Repr

/-- Modelled from the spec: merging a partial update; every field of
`ParallelWorkflowState` is a plain `str` field, hence *replace* policy. -/
def ParallelWorkflowState.merge (s : ParallelWorkflowState) (u : ParallelUpdate) :
    ParallelWorkflowState :=
  { topic := u.topic.getD s.topic
    joke := u.joke.getD s.joke
    story := u.story.getD s.story
    poem := u.poem.getD s.poem
    combined_output := u.combined_output.getD s.combined_output }

/-- The initial input of an invocation: the caller may supply any subset of
the declared fields (`run_parallel_workflow` supplies only `topic`). -/
structure ParallelInput where
  topic : Option String := none
  joke : Option String := none
  story : Option String := none
  poem : Option String := none
  combined_output : Option String := none
deriving Repr

/-- Modelled from the spec: invoke step 1 — the current State is the initial
input merged with the per-field zero default (the empty string) for every
declared field absent from the input (spec sections 3 and 4.2). -/
def initParallelState (inp : ParallelInput) : ParallelWorkflowState :=
  { topic := inp.topic.getD ""
    joke := inp.joke.getD ""
    story := inp.story.getD ""
    poem := inp.poem.getD ""
    combined_output := inp.combined_output.getD "" }

/-- The single LLM collaborator of the parallel workflow. -/
structure ParallelEnv where
  llm : String → String

/-- Source `generate_joke_output` (parallel_workflow.py lines 14-17). -/
def generate_joke_output (env : ParallelEnv) (s : ParallelWorkflowState) : ParallelUpdate :=
  { joke := some (env.llm ("Write a joke about " ++ s.topic)) }

/-- Source `generate_story_output` (parallel_workflow.py lines 19-22). -/
def generate_story_output (env : ParallelEnv) (s : ParallelWorkflowState) : ParallelUpdate :=
  { story := some (env.llm ("Write a story about " ++ s.topic)) }

/-- Source `generate_poem_output` (parallel_workflow.py lines 24-27). -/
def generate_poem_output (env : ParallelEnv) (s : ParallelWorkflowState) : ParallelUpdate :=
  { poem := some (env.llm ("Write a poem about " ++ s.topic)) }

/-- Source `aggregate_outputs` (parallel_workflow.py lines 29-38). -/
def aggregate_outputs (s : ParallelWorkflowState) : ParallelUpdate :=
  { combined_output := some
      ("Here is a combined output for the topic '" ++ s.topic ++ "':\n\n" ++
       "--- STORY ---\n" ++ s.story ++ "\n\n" ++
       "--- JOKE ---\n" ++ s.joke ++ "\n\n" ++
       "--- POEM ---\n" ++ s.poem) }

/-- The three branches spawned from START, in spawn order — the order their
edges are added in `run_parallel_workflow` (parallel_workflow.py lines 49-51):
joke, story, poem. -/
def parallel_branches (env : ParallelEnv) :
    List (ParallelWorkflowState → ParallelUpdate) :=
  [generate_joke_output env, generate_story_output env, generate_poem_output env]

/-- Modelled from the spec: the Run Executor (spec sections 4.2 and 5) on the
graph built in `run_parallel_workflow` (parallel_workflow.py lines 40-61):
the three generators run concurrently on the same state snapshot,
`schedule` lists their spawn indices in completion order, their updates are
merged in spawn order regardless of that completion order, then the merged
state flows through `aggregate_outputs` to END. -/
def run_parallel_workflow (env : ParallelEnv) (schedule : List Nat)
    (inp : ParallelInput) : ParallelWorkflowState :=
  let s1 := initParallelState inp
  let results := tagResults (fun i => ((parallel_branches env).get? i).map (fun f => f s1))
    schedule
  let merged := (List.range (parallel_branches env).length).foldl
    (fun s i =>
      match results.lookup i with
      | some u => s.merge u
      | none => s) s1
  merged.merge (aggregate_outputs merged)

end ParallelWorkflow

namespace EvaluatorOptimizerWorkflow

/-! ## Evaluator-optimizer workflow (`evaluator_optimizer_workflow.py`) -/

/-- Source `EvaluatorWorkflowState` (evaluator_optimizer_workflow.py lines 15-19). -/
structure EvaluatorWorkflowState where
  report_topic : String
  generated_joke : String
  evaluation_feedback : String
  joke_quality : String
deriving Repr, DecidableEq

/-- A partial update to `EvaluatorWorkflowState`. -/
structure EvaluatorUpdate where
  report_topic : Option String := none
  generated_joke : Option String := none
  evaluation_feedback : Option String := none
  joke_quality : Option String := none
deriving Repr

/-- Modelled from the spec: merging a partial update; all fields are plain
`str` fields, hence *replace* policy. -/
def EvaluatorWorkflowState.merge (s : EvaluatorWorkflowState) (u : EvaluatorUpdate) :
    EvaluatorWorkflowState :=
  { report_topic := u.report_topic.getD s.report_topic
    generated_joke := u.generated_joke.getD s.generated_joke
    evaluation_feedback := u.evaluation_feedback.getD s.evaluation_feedback
    joke_quality := u.joke_quality.getD s.joke_quality }

/-- Structured output schema `JokeFeedback`
(evaluator_optimizer_workflow.py lines 21-24). -/
structure JokeFeedback where
  grade : String
  feedback : String
deriving Repr, DecidableEq

/-- The LLM collaborators of the evaluator-optimizer workflow.  The external
LLM service is stateful across calls, so the oracles take the run's loop
iteration index in addition to the prompt; `evaluator_llm` is the
structured-output client (`llm.with_structured_output(JokeFeedback)`). -/
structure EvaluatorEnv where
  llm : Nat → String → String
  evaluator_llm : Nat → String → JokeFeedback

/-- Source `generate_joke_node` (evaluator_optimizer_workflow.py lines 31-37).
Python's `if state.get("evaluation_feedback"):` is a truthiness test: it takes
the feedback branch exactly when the field holds a non-empty string. -/
def generate_joke_node (env : EvaluatorEnv) (n : Nat) (s : EvaluatorWorkflowState) :
    EvaluatorUpdate :=
  if s.evaluation_feedback ≠ "" then
    { generated_joke := some (env.llm n
        ("Write a joke about " ++ s.report_topic ++
         " considering this feedback: " ++ s.evaluation_feedback)) }
  else
    { generated_joke := some (env.llm n ("Write a joke about " ++ s.report_topic)) }

/-- Source `evaluate_joke_node` (evaluator_optimizer_workflow.py lines 39-43). -/
def evaluate_joke_node (env : EvaluatorEnv) (n : Nat) (s : EvaluatorWorkflowState) :
    EvaluatorUpdate :=
  let evaluation := env.evaluator_llm n
    ("Evaluate the following joke and provide a grade (funny or not funny) and feedback: "
     ++ s.generated_joke)
  { joke_quality := some evaluation.grade
    evaluation_feedback := some evaluation.feedback }

/-- Source `route_joke_decision` (evaluator_optimizer_workflow.py lines 45-50).  The
Python function falls off the end (returns `None`) when `joke_quality` is
neither "funny" nor "not funny". -/
def route_joke_decision (s : EvaluatorWorkflowState) : Option String :=
  if s.joke_quality = "funny" then some "Accepted"
  else if s.joke_quality = "not funny" then some "LoopBackForImprovement"
  else none

/-- The route map of the evaluator workflow's conditional edge
(evaluator_optimizer_workflow.py lines 63-67). -/
def evaluator_route_map : List (String × String) :=
  [("Accepted", END_MARKER), ("LoopBackForImprovement", "generate_joke_node")]

/-- Modelled from the spec: the Run Executor (spec section 4.2) on the cyclic
graph built in `run_evaluator_optimizer_workflow`
(evaluator_optimizer_workflow.py lines 52-77): `generate_joke_node` →
`evaluate_joke_node` → conditional edge (`route_joke_decision` through
`evaluator_route_map`) looping back to `generate_joke_node` or reaching END.
`fuel` bounds the modelled recursion: `none` means the bound was exhausted (an
artifact of the shallow embedding, not an engine outcome); `n` is the loop
iteration index fed to the call-indexed oracles. -/
def evalOptLoop (env : EvaluatorEnv) :
    Nat → Nat → EvaluatorWorkflowState →
    Option (Except EngineError EvaluatorWorkflowState)
  | 0, _, _ => none
  | fuel + 1, n, s =>
    let s1 := s.merge (generate_joke_node env n s)
    let s2 := s1.merge (evaluate_joke_node env n s1)
    match resolveRoute evaluator_route_map (route_joke_decision s2) with
    | .error e => some (.error e)
    | .ok dest =>
      if dest = END_MARKER then some (.ok s2)
      else evalOptLoop env fuel (n + 1) s2

/-- The initial state of `run_evaluator_optimizer_workflow`
(evaluator_optimizer_workflow.py line 73). -/
def evaluator_initial_state : EvaluatorWorkflowState :=
  { report_topic := "Cats", generated_joke := "", evaluation_feedback := "",
    joke_quality := "" }

end EvaluatorOptimizerWorkflow

namespace OrchestratorWorkflow

/-! ## Orchestrator-worker workflow (`orchestrator_worker_workflow.py`) -/

/-- Source `ReportSection` (orchestrator_worker_workflow.py lines 21-23). -/
structure ReportSection where
  section_name : String
  section_description : String
deriving Repr, DecidableEq

/-- Source `ReportPlan` (orchestrator_worker_workflow.py lines 25-27). -/
structure ReportPlan where
  sections : List ReportSection
deriving Repr, DecidableEq

/-- Source `OrchestratorWorkflowState` (orchestrator_worker_workflow.py lines 30-35).
All four fields, including `worker_outputs`, are declared as plain types with
no reducer annotation (`worker_outputs: List[str]`, line 33): the source never
wraps it in `Annotated[..., operator.add]` — `import operator` (line 14) is
unused and `operator.add` appears only in the comment on `WorkerState`
line 40 — so every field has the *replace* (last-value) policy. -/
structure OrchestratorWorkflowState where
  report_topic : String
  planned_sections : List ReportSection
  worker_outputs : List String
  final_report : String
deriving Repr, DecidableEq

/-- Source `WorkerState` (orchestrator_worker_workflow.py lines 38-40). -/
structure WorkerState where
  assigned_section : ReportSection
  worker_outputs : List String
deriving Repr, DecidableEq

/-- A partial update to `OrchestratorWorkflowState`: the sub-mapping of
fields a node changes. -/
structure OrchestratorUpdate where
  report_topic : Option String := none
  planned_sections : Option (List ReportSection) := none
  worker_outputs : Option (List String) := none
  final_report : Option String := none
deriving Repr

/-- Modelled from the spec: merging a partial update.  Every field of
`OrchestratorWorkflowState` is reducer-less in the source, hence *replace*
policy (spec section 3); concurrent *replace* writes from parallel branches
are resolved deterministically, last-writer-by-spawn-order (spec section 4.2
step 3b), by the spawn-order merge fold in the run driver. -/
def OrchestratorWorkflowState.merge (s : OrchestratorWorkflowState)
    (u : OrchestratorUpdate) : OrchestratorWorkflowState :=
  { report_topic := u.report_topic.getD s.report_topic
    planned_sections := u.planned_sections.getD s.planned_sections
    worker_outputs := u.worker_outputs.getD s.worker_outputs
    final_report := u.final_report.getD s.final_report }

/-- The LLM collaborators of the orchestrator-worker workflow:
`report_planner_llm` is the structured-output client
(`llm.with_structured_output(ReportPlan)`), `llm` the plain client invoked on
a message list, returning the response content. -/
structure OrchestratorEnv where
  report_planner_llm : List ChatMessage → ReportPlan
  llm : List ChatMessage → String

/-- Source `orchestrator_node` (orchestrator_worker_workflow.py lines 47-53). -/
def orchestrator_node (env : OrchestratorEnv) (s : OrchestratorWorkflowState) :
    OrchestratorUpdate :=
  let plan := env.report_planner_llm
    [ChatMessage.systemMsg "Generate a plan for a report.",
     ChatMessage.humanMsg ("The report topic is: " ++ s.report_topic)]
  { planned_sections := some plan.sections }

/-- Source `worker_node` (orchestrator_worker_workflow.py lines 55-63): the worker's
output is wrapped in a one-element list, written to the reducer-less
(*replace*) field `worker_outputs`. -/
def worker_node (env : OrchestratorEnv) (w : WorkerState) : OrchestratorUpdate :=
  let response := env.llm
    [ChatMessage.systemMsg "Write a report section in markdown format without preamble.",
     ChatMessage.humanMsg
       ("Section Name: " ++ w.assigned_section.section_name ++ "\n" ++
        "Section Description: " ++ w.assigned_section.section_description)]
  { worker_outputs := some [response] }

/-- Source `synthesizer_node` (orchestrator_worker_workflow.py lines 65-69). -/
def synthesizer_node (s : OrchestratorWorkflowState) : OrchestratorUpdate :=
  { final_report := some
      ("Final Report on " ++ s.report_topic ++ ":\n\n" ++
       String.intercalate "\n\n---\n\n" s.worker_outputs) }

/-- Source `assign_workers` (orchestrator_worker_workflow.py lines 71-75): one
`Send("worker_node", {"assigned_section": section})` per planned section, in
plan order.  A Send is modelled as (target node identifier, seed worker
state); the seed's `worker_outputs` field is absent from the Python dict and
takes the empty-sequence default (spec section 3). -/
def assign_workers (s : OrchestratorWorkflowState) : List (String × WorkerState) :=
  s.planned_sections.map
    (fun sec => ("worker_node", { assigned_section := sec, worker_outputs := [] }))

/-- The initial state of `run_orchestrator_worker_workflow`
(orchestrator_worker_workflow.py line 99): only `report_topic` is supplied;
the other declared fields take their zero defaults. -/
def orchestrator_initial_state (topic : String) : OrchestratorWorkflowState :=
  { report_topic := topic, planned_sections := [], worker_outputs := [],
    final_report := "" }

/-- Modelled from the spec: the Run Executor (spec sections 4.2 and 5) on the
graph built in `run_orchestrator_worker_workflow`
(orchestrator_worker_workflow.py lines 77-103): START → `orchestrator_node` →
fan-out conditional edge (`assign_workers` returning Sends) → the spawned
`worker_node` branches (running concurrently; `schedule` lists their spawn
indices in completion order) → merge of the branch updates in spawn order,
so for the reducer-less *replace* field `worker_outputs` the
last-spawned branch's write wins (spec section 4.2 step 3b) →
`synthesizer_node` → END. -/
def run_orchestrator_worker_workflow (env : OrchestratorEnv) (schedule : List Nat)
    (s0 : OrchestratorWorkflowState) : OrchestratorWorkflowState :=
  let s1 := s0.merge (orchestrator_node env s0)
  let sends := assign_workers s1
  let results := tagResults
    (fun i => (sends.get? i).bind
      (fun sd => if sd.1 = "worker_node" then some (worker_node env sd.2) else none))
    schedule
  let s2 := (List.range sends.length).foldl
    (fun s i =>
      match results.lookup i with
      | some u => s.merge u
      | none => s) s1
  s2.merge (synthesizer_node s2)

end OrchestratorWorkflow

namespace AgentWorkflow

/-! ## Agent workflow (`agent_workflow.py`) -/

/-- The named arguments of one arithmetic tool call (all three tools take
`first_number` and `second_number`). -/
structure ToolCallArgs where
  first_number : Int
  second_number : Int
deriving Repr, DecidableEq

/-- One tool call requested by the model: name, arguments and call
identifier, as read from `tool_call["name"]`, `tool_call["args"]`,
`tool_call["id"]` in `agent_tool_execution`. -/
structure ToolCall where
  name : String
  args : ToolCallArgs
  id : String
deriving Repr, DecidableEq

/-- Messages of the agent conversation: system and human messages, AI
responses (the only kind carrying `tool_calls`) and tool results
(`ToolMessage(content, tool_call_id)`). -/
inductive AgentMessage where
  | systemMsg (content : String)
  | humanMsg (content : String)
  | aiMsg (content : String) (tool_calls : List ToolCall)
  | toolMsg (content : String) (tool_call_id : String)
deriving Repr, DecidableEq

/-- Python's `getattr(message, "tool_calls", [])`: the tool calls of an AI
message, `[]` for every other kind. -/
def AgentMessage.tool_calls : AgentMessage → List ToolCall
  | .aiMsg _ tcs => tcs
  | _ => []

/-- Source `AgentWorkflowState` (agent_workflow.py lines 15-16). -/
structure AgentWorkflowState where
  messages : List AgentMessage
deriving Repr, DecidableEq

/-- A partial update to `AgentWorkflowState`.  `messages` is a plain `list`
field with no reducer annotation in the source, hence *replace* policy. -/
structure AgentUpdate where
  messages : Option (List AgentMessage) := none
deriving Repr

/-- Modelled from the spec: merging a partial update (replace). -/
def AgentWorkflowState.merge (s : AgentWorkflowState) (u : AgentUpdate) :
    AgentWorkflowState :=
  { messages := u.messages.getD s.messages }

/-- Python exceptions the agent workflow's nodes can raise:
`ZeroDivisionError` from `divide_numbers`, `IndexError` from indexing
`state["messages"][-1]` on an empty list. -/
inductive AgentError where
  | zeroDivisionError
  | indexError
deriving Repr, DecidableEq

/-- A tool's return value: `int` for addition and multiplication, `float` for
division.  Python float division on nonzero operands is modelled as the exact
rational quotient. -/
inductive ToolValue where
  | intVal (n : Int)
  | floatVal (q : ℚ)
deriving Repr, DecidableEq

/-- Source `multiply_numbers` (agent_workflow.py lines 19-22). -/
def multiply_numbers (first_number second_number : Int) :
    Except AgentError ToolValue :=
  .ok (.intVal (first_number * second_number))

/-- Source `add_numbers` (agent_workflow.py lines 24-27). -/
def add_numbers (first_number second_number : Int) :
    Except AgentError ToolValue :=
  .ok (.intVal (first_number + second_number))

/-- Source `divide_numbers` (agent_workflow.py lines 29-32): Python `/` raises
`ZeroDivisionError` when the divisor is zero; otherwise the float quotient is
modelled as the exact rational. -/
def divide_numbers (first_number second_number : Int) :
    Except AgentError ToolValue :=
  if second_number = 0 then .error .zeroDivisionError
  else .ok (.floatVal ((first_number : ℚ) / (second_number : ℚ)))

/-- Source `tools_lookup` (agent_workflow.py lines 34-36): lookup of a tool by its
name, built from `arithmetic_tools = [add_numbers, multiply_numbers,
divide_numbers]`; an unknown name has no entry. -/
def tools_lookup (name : String) :
    Option (Int → Int → Except AgentError ToolValue) :=
  if name = "add_numbers" then some add_numbers
  else if name = "multiply_numbers" then some multiply_numbers
  else if name = "divide_numbers" then some divide_numbers
  else none

/-- Python `str(result)` on a tool's return value; float formatting is
abstracted to the rational's printed form. -/
def ToolValue.repr : ToolValue → String
  | .intVal n => toString n
  | .floatVal q => toString q

/-- The tool-execution loop body of `agent_tool_execution`
(agent_workflow.py lines 53-59): each call whose name is found in
`tools_lookup` is invoked and its result wrapped as a `ToolMessage`; a call
whose name is absent is skipped; a raised exception (the only one possible is
`ZeroDivisionError`) aborts the loop and propagates. -/
def execToolCalls : List ToolCall → Except AgentError (List AgentMessage)
  | [] => .ok []
  | tc :: rest =>
    match tools_lookup tc.name with
    | none => execToolCalls rest
    | some f =>
      match f tc.args.first_number tc.args.second_number with
      | .error e => .error e
      | .ok result =>
        match execToolCalls rest with
        | .error e => .error e
        | .ok msgs => .ok (.toolMsg result.repr tc.id :: msgs)

/-- Source `agent_tool_execution` (agent_workflow.py lines 49-60): processes the
tool calls of the last message; the returned update replaces `messages` with
the produced tool messages. -/
def agent_tool_execution (s : AgentWorkflowState) :
    Except AgentError (List AgentMessage) :=
  match s.messages.getLast? with
  | none => .error .indexError
  | some last => execToolCalls last.tool_calls

/-- The LLM collaborator of the agent workflow
(`llm.bind_tools(arithmetic_tools)`); the external service is stateful across
calls, so the oracle takes the run's loop iteration index in addition to the
message list, and returns the full response message. -/
structure AgentEnv where
  llm_with_tools : Nat → List AgentMessage → AgentMessage

/-- Source `agent_llm_call` (agent_workflow.py lines 42-47). -/
def agent_llm_call (env : AgentEnv) (n : Nat) (s : AgentWorkflowState) :
    AgentUpdate :=
  let combined := AgentMessage.systemMsg "You are a helpful arithmetic assistant."
    :: s.messages
  { messages := some [env.llm_with_tools n combined] }

/-- Source `decide_agent_route` (agent_workflow.py lines 62-68): routes to
"execute_tool" exactly when the last message carries tool calls, to END
otherwise; `none` models Python raising `IndexError` on an empty message
list. -/
def decide_agent_route (s : AgentWorkflowState) : Option String :=
  (s.messages.getLast?).map
    (fun last => if last.tool_calls ≠ [] then "execute_tool" else END_MARKER)

/-- The route map of the agent workflow's conditional edge
(agent_workflow.py lines 79-83). -/
def agent_route_map : List (String × String) :=
  [("execute_tool", "agent_tool_execution"), (END_MARKER, END_MARKER)]

/-- Errors that can abort an agent run: an exception propagated from a node
function, or an engine error from conditional dispatch. -/
inductive AgentRunError where
  | nodeError (e : AgentError)
  | engineError (e : EngineError)
deriving Repr, DecidableEq

/-- Modelled from the spec: the Run Executor (spec section 4.2) on the cyclic
graph built in `run_agent_workflow` (agent_workflow.py lines 70-100):
`agent_llm_call` → conditional edge (`decide_agent_route` through
`agent_route_map`) → `agent_tool_execution` → back to `agent_llm_call`, or
END.  A node error aborts the run immediately and propagates (spec
section 4.2, failure semantics).  `fuel` bounds the modelled recursion:
`none` means the bound was exhausted (artifact of the shallow embedding); `n`
is the loop iteration index fed to the call-indexed oracle. -/
def agentLoop (env : AgentEnv) :
    Nat → Nat → AgentWorkflowState →
    Option (Except AgentRunError AgentWorkflowState)
  | 0, _, _ => none
  | fuel + 1, n, s =>
    let s1 := s.merge (agent_llm_call env n s)
    match resolveRoute agent_route_map (decide_agent_route s1) with
    | .error e => some (.error (.engineError e))
    | .ok dest =>
      if dest = END_MARKER then some (.ok s1)
      else
        match agent_tool_execution s1 with
        | .error e => some (.error (.nodeError e))
        | .ok msgs => agentLoop env fuel (n + 1) (s1.merge { messages := some msgs })

/-- The initial state of `run_agent_workflow` (agent_workflow.py lines
89-91). -/
def agent_initial_state : AgentWorkflowState :=
  { messages := [AgentMessage.humanMsg "Add 3 and 4."] }

end AgentWorkflow

/-! ## Helper lemmas -/

/-- Looking up a spawn index in the completion-order-tagged results recovers
that branch's update, for any completion order containing the index. -/
theorem lookup_tagResults {υ : Type} (g : Nat → Option υ) :
    ∀ (l : List Nat) (i : Nat) (u : υ), i ∈ l → g i = some u →
      (tagResults g l).lookup i = some u := by
  intro l
  induction l with
  | nil => intro i u h _; cases h
  | cons j t ih =>
    intro i u hmem hg
    rcases List.mem_cons.mp hmem with h | h
    · subst h
      simp [tagResults, List.filterMap_cons, hg, List.lookup]
    · by_cases hij : i = j
      · subst hij
        simp [tagResults, List.filterMap_cons, hg, List.lookup]
      · cases hgj : g j with
        | none =>
          simpa [tagResults, List.filterMap_cons, hgj] using ih i u h hg
        | some b =>
          have hbeq : (i == j) = false := by simp [hij]
          simpa [tagResults, List.filterMap_cons, hgj, List.lookup, hbeq]
            using ih i u h hg

namespace RoutingWorkflow

/-- The labels `decide_next_node` can return. -/
theorem decide_next_node_cases (s : RoutingWorkflowState) (label : String)
    (h : decide_next_node s = some label) :
    label = "generate_story_output" ∨ label = "generate_joke_output" ∨
      label = "generate_poem_output" := by
  simp only [decide_next_node] at h
  split_ifs at h <;> simp_all

/-- C2: for every state in which the router `decide_next_node` returns one of
its declared labels, the engine transitions to exactly the node mapped to
that label in `routing_route_map`; for every state in which the router's
return value is absent from the route map (including the Python `None`
return), `invoke` raises `RouterError`. -/
theorem routing_router_correctness (env : RoutingEnv) (s0 : RoutingWorkflowState) :
    (∀ label dest, decide_next_node (s0.merge (route_input env s0)) = some label →
        routing_route_map.lookup label = some dest →
        ∃ s', run_routing_workflow env s0 = .ok (s', ["route_input", dest])) ∧
    (∀ label, decide_next_node (s0.merge (route_input env s0)) = some label →
        routing_route_map.lookup label = none →
        run_routing_workflow env s0 = .error .routerError) ∧
    (decide_next_node (s0.merge (route_input env s0)) = none →
        run_routing_workflow env s0 = .error .routerError) := by
  refine ⟨?_, ?_, ?_⟩
  · intro label dest h1 h2
    rcases decide_next_node_cases _ _ h1 with h | h | h
    all_goals subst h
    · have hl : routing_route_map.lookup "generate_story_output" =
          some "generate_story_output" := by decide
      rw [hl] at h2; injection h2 with h2; subst h2
      exact ⟨(s0.merge (route_input env s0)).merge
          (generate_story_output env (s0.merge (route_input env s0))),
        by simp [run_routing_workflow, resolveRoute, h1, hl, routing_nodes,
          bind, Except.bind]⟩
    · have hl : routing_route_map.lookup "generate_joke_output" =
          some "generate_joke_output" := by decide
      rw [hl] at h2; injection h2 with h2; subst h2
      exact ⟨(s0.merge (route_input env s0)).merge
          (generate_joke_output env (s0.merge (route_input env s0))),
        by simp [run_routing_workflow, resolveRoute, h1, hl, routing_nodes,
          bind, Except.bind]⟩
    · have hl : routing_route_map.lookup "generate_poem_output" =
          some "generate_poem_output" := by decide
      rw [hl] at h2; injection h2 with h2; subst h2
      exact ⟨(s0.merge (route_input env s0)).merge
          (generate_poem_output env (s0.merge (route_input env s0))),
        by simp [run_routing_workflow, resolveRoute, h1, hl, routing_nodes,
          bind, Except.bind]⟩
  · intro label h1 h2
    rcases decide_next_node_cases _ _ h1 with h | h | h
    all_goals subst h
    all_goals exact absurd h2 (by decide)
  · intro h1
    simp [run_routing_workflow, resolveRoute, h1, bind, Except.bind]

/-- Witness for C2: a run whose router label is "story" reaches exactly
`generate_story_output`; a run whose routing decision is "sonnet" (absent
from the map) raises `RouterError`. -/
theorem routing_router_correctness_witness :
    (∃ s', run_routing_workflow ⟨fun _ => ⟨"story"⟩, fun p => p⟩ ⟨"u", "", ""⟩ =
        .ok (s', ["route_input", "generate_story_output"])) ∧
    run_routing_workflow ⟨fun _ => ⟨"sonnet"⟩, fun p => p⟩ ⟨"u", "", ""⟩ =
      .error .routerError := by
  constructor
  · exact (routing_router_correctness ⟨fun _ => ⟨"story"⟩, fun p => p⟩ ⟨"u", "", ""⟩).1
      "generate_story_output" "generate_story_output" (by decide) (by decide)
  · exact (routing_router_correctness ⟨fun _ => ⟨"sonnet"⟩, fun p => p⟩ ⟨"u", "", ""⟩).2.2
      (by decide)

/-- C7: on the routing workflow (no cycles, no fan-out once the route is
chosen), `invoke` executes each node of the taken path exactly once (the
trace is duplicate-free) and the *replace* field `final_output` of the final
state equals the value written by the last node, in execution order, that
wrote it — the single selected generator. -/
theorem routing_visit_once_last_writer (env : RoutingEnv) (s0 : RoutingWorkflowState)
    (label dest : String)
    (h1 : decide_next_node (s0.merge (route_input env s0)) = some label)
    (h2 : routing_route_map.lookup label = some dest) :
    ∃ f v, routing_nodes env dest = some f ∧
      run_routing_workflow env s0 =
        .ok ((s0.merge (route_input env s0)).merge (f (s0.merge (route_input env s0))),
             ["route_input", dest]) ∧
      (["route_input", dest] : List String).Nodup ∧
      (f (s0.merge (route_input env s0))).final_output = some v ∧
      ((s0.merge (route_input env s0)).merge
          (f (s0.merge (route_input env s0)))).final_output = v := by
  rcases decide_next_node_cases _ _ h1 with h | h | h
  all_goals subst h
  · have hl : routing_route_map.lookup "generate_story_output" =
        some "generate_story_output" := by decide
    rw [hl] at h2; injection h2 with h2; subst h2
    refine ⟨generate_story_output env, _, rfl, ?_, by decide, rfl, rfl⟩
    simp [run_routing_workflow, resolveRoute, h1, hl, routing_nodes, bind, Except.bind]
  · have hl : routing_route_map.lookup "generate_joke_output" =
        some "generate_joke_output" := by decide
    rw [hl] at h2; injection h2 with h2; subst h2
    refine ⟨generate_joke_output env, _, rfl, ?_, by decide, rfl, rfl⟩
    simp [run_routing_workflow, resolveRoute, h1, hl, routing_nodes, bind, Except.bind]
  · have hl : routing_route_map.lookup "generate_poem_output" =
        some "generate_poem_output" := by decide
    rw [hl] at h2; injection h2 with h2; subst h2
    refine ⟨generate_poem_output env, _, rfl, ?_, by decide, rfl, rfl⟩
    simp [run_routing_workflow, resolveRoute, h1, hl, routing_nodes, bind, Except.bind]

/-- Witness for C7: on a run routed to the joke generator, the trace visits
`route_input` and `generate_joke_output` once each and `final_output` is the
joke generator's value. -/
theorem routing_visit_once_last_writer_witness :
    ∃ s', run_routing_workflow ⟨fun _ => ⟨"joke"⟩, fun p => p⟩ ⟨"u", "", ""⟩ =
        .ok (s', ["route_input", "generate_joke_output"]) ∧
      s'.final_output = "Write a joke based on: u" := by
  obtain ⟨f, v, hf, hrun, -, hsome, hfin⟩ :=
    routing_visit_once_last_writer ⟨fun _ => ⟨"joke"⟩, fun p => p⟩ ⟨"u", "", ""⟩
      "generate_joke_output" "generate_joke_output" (by decide) (by decide)
  have hf' : f = generate_joke_output ⟨fun _ => ⟨"joke"⟩, fun p => p⟩ := by
    have hn : routing_nodes ⟨fun _ => ⟨"joke"⟩, fun p => p⟩ "generate_joke_output" =
        some (generate_joke_output ⟨fun _ => ⟨"joke"⟩, fun p => p⟩) := rfl
    rw [hn] at hf
    exact (Option.some.inj hf).symm
  subst hf'
  refine ⟨_, hrun, ?_⟩
  rw [hfin]
  have hv := hsome.symm.trans
    (show (generate_joke_output ⟨fun _ => ⟨"joke"⟩, fun p => p⟩
        (RoutingWorkflowState.merge ⟨"u", "", ""⟩
          (route_input ⟨fun _ => ⟨"joke"⟩, fun p => p⟩ ⟨"u", "", ""⟩))).final_output =
      some "Write a joke based on: u" from rfl)
  exact Option.some.inj hv

end RoutingWorkflow

/-- C9: the router functions are partial over their state domains: when
`joke_quality` is neither "funny" nor "not funny", `route_joke_decision`
returns `none`, and when `routing_decision` is none of "story", "joke",
"poem", `decide_next_node` returns `none` — a value absent from the
corresponding route map, so conditional dispatch on such a state selects no
mapped destination (it raises `RouterError`). -/
theorem routers_partial_outside_domain
    (se : EvaluatorOptimizerWorkflow.EvaluatorWorkflowState)
    (sr : RoutingWorkflow.RoutingWorkflowState)
    (h1 : se.joke_quality ≠ "funny") (h2 : se.joke_quality ≠ "not funny")
    (h3 : sr.routing_decision ≠ "story") (h4 : sr.routing_decision ≠ "joke")
    (h5 : sr.routing_decision ≠ "poem") :
    EvaluatorOptimizerWorkflow.route_joke_decision se = none ∧
    RoutingWorkflow.decide_next_node sr = none ∧
    resolveRoute EvaluatorOptimizerWorkflow.evaluator_route_map
      (EvaluatorOptimizerWorkflow.route_joke_decision se) = .error .routerError ∧
    resolveRoute RoutingWorkflow.routing_route_map
      (RoutingWorkflow.decide_next_node sr) = .error .routerError := by
  have e1 : EvaluatorOptimizerWorkflow.route_joke_decision se = none := by
    simp [EvaluatorOptimizerWorkflow.route_joke_decision, h1, h2]
  have e2 : RoutingWorkflow.decide_next_node sr = none := by
    simp [RoutingWorkflow.decide_next_node, h3, h4, h5]
  exact ⟨e1, e2, by rw [e1]; rfl, by rw [e2]; rfl⟩

namespace ParallelWorkflow

/-- Any completion order of the three parallel branches produces the same
run outcome as completing them in spawn order: the engine merges branch
updates in spawn order (spec section 5). -/
theorem run_parallel_workflow_canonical (env : ParallelEnv) (inp : ParallelInput)
    (sch : List Nat) (h : sch.Perm (List.range 3)) :
    run_parallel_workflow env sch inp =
      (let s1 := initParallelState inp
       let m := ((s1.merge (generate_joke_output env s1)).merge
                  (generate_story_output env s1)).merge (generate_poem_output env s1)
       m.merge (aggregate_outputs m)) := by
  have h0 : (0 : Nat) ∈ sch := h.mem_iff.mpr (by decide)
  have h1 : (1 : Nat) ∈ sch := h.mem_iff.mpr (by decide)
  have h2 : (2 : Nat) ∈ sch := h.mem_iff.mpr (by decide)
  have l0 : (tagResults
      (fun i => ((parallel_branches env).get? i).map (fun f => f (initParallelState inp)))
      sch).lookup 0 = some (generate_joke_output env (initParallelState inp)) :=
    lookup_tagResults _ sch 0 _ h0 rfl
  have l1 : (tagResults
      (fun i => ((parallel_branches env).get? i).map (fun f => f (initParallelState inp)))
      sch).lookup 1 = some (generate_story_output env (initParallelState inp)) :=
    lookup_tagResults _ sch 1 _ h1 rfl
  have l2 : (tagResults
      (fun i => ((parallel_branches env).get? i).map (fun f => f (initParallelState inp)))
      sch).lookup 2 = some (generate_poem_output env (initParallelState inp)) :=
    lookup_tagResults _ sch 2 _ h2 rfl
  simp only [run_parallel_workflow]
  simp only [parallel_branches, List.get?_eq_getElem?] at l0 l1 l2 ⊢
  norm_num [List.range_succ, l0, l1, l2]

/-- C6: two-run determinism of `invoke` on the parallel workflow — invoking
the compiled graph twice with the identical initial input and the same
deterministic node functions yields the identical final state, even when the
two runs' parallel branches complete in different orders. -/
theorem parallel_two_run_determinism (env : ParallelEnv) (inp : ParallelInput)
    (sch1 sch2 : List Nat)
    (hp1 : sch1.Perm (List.range 3)) (hp2 : sch2.Perm (List.range 3)) :
    run_parallel_workflow env sch1 inp = run_parallel_workflow env sch2 inp := by
  rw [run_parallel_workflow_canonical env inp sch1 hp1,
      run_parallel_workflow_canonical env inp sch2 hp2]

/-- Witness for C6: two runs on the topic "cats", one completing branches in
spawn order, the other completing the poem branch first, end in the same
final state. -/
theorem parallel_two_run_determinism_witness :
    ([0, 1, 2] : List Nat).Perm (List.range 3) ∧
    ([2, 0, 1] : List Nat).Perm (List.range 3) ∧
    run_parallel_workflow ⟨fun p => p⟩ [0, 1, 2]
        ⟨some "cats", none, none, none, none⟩ =
      run_parallel_workflow ⟨fun p => p⟩ [2, 0, 1]
        ⟨some "cats", none, none, none, none⟩ :=
  ⟨by decide, by decide,
   parallel_two_run_determinism ⟨fun p => p⟩ ⟨some "cats", none, none, none, none⟩
     [0, 1, 2] [2, 0, 1] (by decide) (by decide)⟩

/-- C5: the State is a total mapping from all declared field names to values
(structurally, every `ParallelWorkflowState` carries all five fields at every
point of a run); a field absent from the initial input reads as its type's
zero value (the empty string) after initialization, and a supplied field
keeps its value. -/
theorem parallel_state_totality (inp : ParallelInput) :
    (inp.topic = none → (initParallelState inp).topic = "") ∧
    (inp.joke = none → (initParallelState inp).joke = "") ∧
    (inp.story = none → (initParallelState inp).story = "") ∧
    (inp.poem = none → (initParallelState inp).poem = "") ∧
    (inp.combined_output = none → (initParallelState inp).combined_output = "") ∧
    (∀ t, inp.topic = some t → (initParallelState inp).topic = t) := by
  refine ⟨?_, ?_, ?_, ?_, ?_, ?_⟩
  · intro h; simp [initParallelState, h]
  · intro h; simp [initParallelState, h]
  · intro h; simp [initParallelState, h]
  · intro h; simp [initParallelState, h]
  · intro h; simp [initParallelState, h]
  · intro t h; simp [initParallelState, h]

/-- Witness for C5: invoking with only `{"topic": "cats"}`, the fields
`joke`, `story`, `poem`, `combined_output` read as the empty string and
`topic` reads as "cats". -/
theorem parallel_state_totality_witness :
    (initParallelState ⟨some "cats", none, none, none, none⟩).joke = "" ∧
    (initParallelState ⟨some "cats", none, none, none, none⟩).story = "" ∧
    (initParallelState ⟨some "cats", none, none, none, none⟩).poem = "" ∧
    (initParallelState ⟨some "cats", none, none, none, none⟩).combined_output = "" ∧
    (initParallelState ⟨some "cats", none, none, none, none⟩).topic = "cats" :=
  ⟨(parallel_state_totality ⟨some "cats", none, none, none, none⟩).2.1 rfl,
   (parallel_state_totality ⟨some "cats", none, none, none, none⟩).2.2.1 rfl,
   (parallel_state_totality ⟨some "cats", none, none, none, none⟩).2.2.2.1 rfl,
   (parallel_state_totality ⟨some "cats", none, none, none, none⟩).2.2.2.2.1 rfl,
   (parallel_state_totality ⟨some "cats", none, none, none, none⟩).2.2.2.2.2 "cats" rfl⟩

end ParallelWorkflow

namespace EvaluatorOptimizerWorkflow

/-- One-step unfolding of the modelled evaluator-optimizer run loop. -/
theorem evalOptLoop_succ (env : EvaluatorEnv) (fuel n : Nat)
    (s : EvaluatorWorkflowState) :
    evalOptLoop env (fuel + 1) n s =
      (let s1 := s.merge (generate_joke_node env n s)
       let s2 := s1.merge (evaluate_joke_node env n s1)
       match resolveRoute evaluator_route_map (route_joke_decision s2) with
       | .error e => some (.error e)
       | .ok dest =>
         if dest = END_MARKER then some (.ok s2)
         else evalOptLoop env fuel (n + 1) s2) := rfl

/-- If the evaluator grades "not funny" for the first `K` loop iterations
starting at call index `j` and "funny" at index `j + K`, the modelled run
loop reaches END and returns a final state within `K + 1` iterations. -/
theorem evalOptLoop_terminates_of_accept (env : EvaluatorEnv) :
    ∀ (K j : Nat) (s : EvaluatorWorkflowState),
      (∀ m p, m < K → (env.evaluator_llm (j + m) p).grade = "not funny") →
      (∀ p, (env.evaluator_llm (j + K) p).grade = "funny") →
      ∃ final, evalOptLoop env (K + 1) j s = some (.ok final) := by
  intro K
  induction K with
  | zero =>
    intro j s _ hacc
    have hacc' : ∀ p, (env.evaluator_llm j p).grade = "funny" := hacc
    refine ⟨(s.merge (generate_joke_node env j s)).merge
        (evaluate_joke_node env j (s.merge (generate_joke_node env j s))), ?_⟩
    rw [evalOptLoop_succ]
    simp [route_joke_decision, EvaluatorWorkflowState.merge, evaluate_joke_node,
      resolveRoute, evaluator_route_map, END_MARKER, hacc']
  | succ K ih =>
    intro j s hloop hacc
    have hnf : ∀ p, (env.evaluator_llm j p).grade = "not funny" := fun p =>
      hloop 0 p (Nat.succ_pos K)
    have hloop' : ∀ m p, m < K →
        (env.evaluator_llm (j + 1 + m) p).grade = "not funny" := by
      intro m p hm
      have e : j + 1 + m = j + (m + 1) := by omega
      rw [e]
      exact hloop (m + 1) p (by omega)
    have hacc' : ∀ p, (env.evaluator_llm (j + 1 + K) p).grade = "funny" := by
      intro p
      have e : j + 1 + K = j + (K + 1) := by omega
      rw [e]
      exact hacc p
    obtain ⟨final, hfin⟩ := ih (j + 1)
      ((s.merge (generate_joke_node env j s)).merge
        (evaluate_joke_node env j (s.merge (generate_joke_node env j s))))
      hloop' hacc'
    refine ⟨final, ?_⟩
    rw [evalOptLoop_succ]
    simp only [route_joke_decision, EvaluatorWorkflowState.merge,
      evaluate_joke_node, resolveRoute, evaluator_route_map, END_MARKER, hnf,
      Option.getD_some, List.lookup]
    simpa [EvaluatorWorkflowState.merge, evaluate_joke_node] using hfin

/-- C4: the cyclic evaluator-optimizer graph terminates once the router
returns the terminal route: if the evaluator grades "not funny" on each of
the first `K` loop iterations and "funny" on iteration `K`, `invoke` reaches
END within `K + 1` iterations and returns a final state, for any finite `K`. -/
theorem evaluator_cycle_termination (env : EvaluatorEnv) (K : Nat)
    (hloop : ∀ m p, m < K → (env.evaluator_llm m p).grade = "not funny")
    (hacc : ∀ p, (env.evaluator_llm K p).grade = "funny")
    (s : EvaluatorWorkflowState) :
    ∃ final, evalOptLoop env (K + 1) 0 s = some (.ok final) := by
  refine evalOptLoop_terminates_of_accept env K 0 s ?_ ?_
  · intro m p hm
    rw [Nat.zero_add]
    exact hloop m p hm
  · intro p
    rw [Nat.zero_add]
    exact hacc p

/-- Witness for C4: evaluator stubs that loop exactly `K` times then accept
terminate the run, for `K` in {0, 1, 5}. -/
theorem evaluator_cycle_termination_witness :
    (∃ f, evalOptLoop ⟨fun _ _ => "joke",
        fun n _ => if n < 0 then ⟨"not funny", "fb"⟩ else ⟨"funny", "fb"⟩⟩
        1 0 evaluator_initial_state = some (.ok f)) ∧
    (∃ f, evalOptLoop ⟨fun _ _ => "joke",
        fun n _ => if n < 1 then ⟨"not funny", "fb"⟩ else ⟨"funny", "fb"⟩⟩
        2 0 evaluator_initial_state = some (.ok f)) ∧
    (∃ f, evalOptLoop ⟨fun _ _ => "joke",
        fun n _ => if n < 5 then ⟨"not funny", "fb"⟩ else ⟨"funny", "fb"⟩⟩
        6 0 evaluator_initial_state = some (.ok f)) := by
  refine ⟨?_, ?_, ?_⟩
  · exact evaluator_cycle_termination _ 0
      (fun m p hm => absurd hm (Nat.not_lt_zero m)) (fun p => by norm_num) _
  · exact evaluator_cycle_termination _ 1
      (fun m p hm => by simp [hm]) (fun p => by norm_num) _
  · exact evaluator_cycle_termination _ 5
      (fun m p hm => by simp [hm]) (fun p => by norm_num) _

end EvaluatorOptimizerWorkflow

namespace OrchestratorWorkflow

/-- C1 (code_bug): the claim requires `worker_outputs` to be an *append*
field collecting one entry per spawned branch in spawn order, and the
source's own comment ("aggregated using operator.add",
orchestrator_worker_workflow.py line 40) together with its otherwise unused
`import operator` (line 14) announce exactly that intent — but line 33
declares the field as plain `List[str]` with no reducer annotation, so its
merge policy is *replace* and concurrent branch writes overwrite one
another.  Evaluated at a plan of two sections: two Sends are spawned, yet
the final `worker_outputs` holds a single entry — the last-spawned branch's
output — and the first branch's output is lost, for either completion order
of the two branches. -/
theorem orchestrator_missing_reducer_loses_outputs :
    (assign_workers
        ((orchestrator_initial_state "T").merge
          (orchestrator_node
            ⟨fun _ => ⟨[⟨"A", "da"⟩, ⟨"B", "db"⟩]⟩,
         fun msgs =>
           match msgs with
           | [_, ChatMessage.humanMsg h] => h
           | _ => ""⟩
            (orchestrator_initial_state "T")))).length = 2 ∧
    (run_orchestrator_worker_workflow
        ⟨fun _ => ⟨[⟨"A", "da"⟩, ⟨"B", "db"⟩]⟩,
         fun msgs =>
           match msgs with
           | [_, ChatMessage.humanMsg h] => h
           | _ => ""⟩
        [0, 1] (orchestrator_initial_state "T")).worker_outputs =
      ["Section Name: B\nSection Description: db"] ∧
    (run_orchestrator_worker_workflow
        ⟨fun _ => ⟨[⟨"A", "da"⟩, ⟨"B", "db"⟩]⟩,
         fun msgs =>
           match msgs with
           | [_, ChatMessage.humanMsg h] => h
           | _ => ""⟩
        [1, 0] (orchestrator_initial_state "T")).worker_outputs =
      ["Section Name: B\nSection Description: db"] ∧
    (run_orchestrator_worker_workflow
        ⟨fun _ => ⟨[⟨"A", "da"⟩, ⟨"B", "db"⟩]⟩,
         fun msgs =>
           match msgs with
           | [_, ChatMessage.humanMsg h] => h
           | _ => ""⟩
        [0, 1] (orchestrator_initial_state "T")).worker_outputs.length ≠ 2 := by
  decide

end OrchestratorWorkflow

namespace AgentWorkflow

/-- One-step unfolding of the modelled agent run loop. -/
theorem agentLoop_succ (env : AgentEnv) (fuel n : Nat) (s : AgentWorkflowState) :
    agentLoop env (fuel + 1) n s =
      (let s1 := s.merge (agent_llm_call env n s)
       match resolveRoute agent_route_map (decide_agent_route s1) with
       | .error e => some (.error (.engineError e))
       | .ok dest =>
         if dest = END_MARKER then some (.ok s1)
         else
           match agent_tool_execution s1 with
           | .error e => some (.error (.nodeError e))
           | .ok msgs =>
             agentLoop env fuel (n + 1) (s1.merge { messages := some msgs })) := rfl

/-- C3: when a node function raises an error during a run (here the tool
node `agent_tool_execution`), `invoke` aborts immediately and propagates
exactly that error to the caller, with no retry (the outcome is the same for
every remaining fuel) and no partial result: the caller receives either a
complete final state or the propagated error, by the run's result type. -/
theorem agent_error_propagation (env : AgentEnv) (n fuel : Nat)
    (s : AgentWorkflowState) (e : AgentError)
    (hroute : decide_agent_route (s.merge (agent_llm_call env n s)) =
      some "execute_tool")
    (herr : agent_tool_execution (s.merge (agent_llm_call env n s)) = .error e) :
    agentLoop env (fuel + 1) n s = some (.error (.nodeError e)) := by
  rw [agentLoop_succ]
  simp [resolveRoute, agent_route_map, hroute, herr, END_MARKER]

/-- Witness for C3: an agent whose model requests `divide_numbers(1, 0)`
propagates the `ZeroDivisionError` out of the run. -/
theorem agent_error_propagation_witness :
    agentLoop ⟨fun _ _ => AgentMessage.aiMsg "" [⟨"divide_numbers", ⟨1, 0⟩, "call1"⟩]⟩
        3 0 agent_initial_state =
      some (.error (.nodeError .zeroDivisionError)) :=
  agent_error_propagation
    ⟨fun _ _ => AgentMessage.aiMsg "" [⟨"divide_numbers", ⟨1, 0⟩, "call1"⟩]⟩
    0 2 agent_initial_state .zeroDivisionError rfl rfl

/-- C8: `divide_numbers` raises `ZeroDivisionError` whenever
`second_number = 0` (the division is unguarded), so an agent tool call to
divide with a zero divisor makes the tool node error and the whole run abort
instead of returning a `ToolMessage`. -/
theorem divide_by_zero_aborts (env : AgentEnv) (n fuel : Nat)
    (s : AgentWorkflowState) (a : Int) (c id : String)
    (hmsg : ∀ k ms, env.llm_with_tools k ms =
      AgentMessage.aiMsg c [⟨"divide_numbers", ⟨a, 0⟩, id⟩]) :
    divide_numbers a 0 = .error .zeroDivisionError ∧
    agent_tool_execution (s.merge (agent_llm_call env n s)) =
      .error .zeroDivisionError ∧
    agentLoop env (fuel + 1) n s = some (.error (.nodeError .zeroDivisionError)) := by
  have h1 : divide_numbers a 0 = .error .zeroDivisionError := by
    simp [divide_numbers]
  have hs1 : (s.merge (agent_llm_call env n s)).messages =
      [AgentMessage.aiMsg c [⟨"divide_numbers", ⟨a, 0⟩, id⟩]] := by
    simp [AgentWorkflowState.merge, agent_llm_call, hmsg]
  have h2 : agent_tool_execution (s.merge (agent_llm_call env n s)) =
      .error .zeroDivisionError := by
    simp [agent_tool_execution, hs1, AgentMessage.tool_calls, execToolCalls,
      tools_lookup, h1]
  have h3 : decide_agent_route (s.merge (agent_llm_call env n s)) =
      some "execute_tool" := by
    simp [decide_agent_route, hs1, AgentMessage.tool_calls]
  refine ⟨h1, h2, ?_⟩
  rw [agentLoop_succ]
  simp [resolveRoute, agent_route_map, h3, h2, END_MARKER]

/-- Witness for C8: `divide_numbers 7 0` errors and the run with a model
stub requesting that call aborts with `ZeroDivisionError`. -/
theorem divide_by_zero_aborts_witness :
    divide_numbers 7 0 = .error .zeroDivisionError ∧
    agent_tool_execution
        (agent_initial_state.merge
          (agent_llm_call
            ⟨fun _ _ => AgentMessage.aiMsg "ok" [⟨"divide_numbers", ⟨7, 0⟩, "c9"⟩]⟩
            0 agent_initial_state)) = .error .zeroDivisionError ∧
    agentLoop ⟨fun _ _ => AgentMessage.aiMsg "ok" [⟨"divide_numbers", ⟨7, 0⟩, "c9"⟩]⟩
        1 0 agent_initial_state =
      some (.error (.nodeError .zeroDivisionError)) :=
  divide_by_zero_aborts
    ⟨fun _ _ => AgentMessage.aiMsg "ok" [⟨"divide_numbers", ⟨7, 0⟩, "c9"⟩]⟩
    0 0 agent_initial_state 7 "ok" "c9" (fun _ _ => rfl)

/-- The tool-execution loop, when every recognized call succeeds, returns
exactly the tool messages of the recognized calls, in call order. -/
theorem execToolCalls_eq (calls : List ToolCall)
    (hok : ∀ tc ∈ calls, ∀ f, tools_lookup tc.name = some f →
      ∃ v, f tc.args.first_number tc.args.second_number = .ok v) :
    execToolCalls calls = .ok (calls.filterMap (fun tc =>
      (tools_lookup tc.name).bind (fun f =>
        match f tc.args.first_number tc.args.second_number with
        | .ok v => some (AgentMessage.toolMsg v.repr tc.id)
        | .error _ => none))) := by
  induction calls with
  | nil => rfl
  | cons tc rest ih =>
    have hrest : ∀ tc ∈ rest, ∀ f, tools_lookup tc.name = some f →
        ∃ v, f tc.args.first_number tc.args.second_number = .ok v :=
      fun tc h => hok tc (List.mem_cons_of_mem _ h)
    cases hl : tools_lookup tc.name with
    | none => simp [execToolCalls, hl, ih hrest, List.filterMap_cons]
    | some f =>
      obtain ⟨v, hv⟩ := hok tc (List.mem_cons_self _ _) f hl
      simp [execToolCalls, hl, hv, ih hrest, List.filterMap_cons]

/-- Under the same success assumption, the number of produced tool messages
is the number of recognized calls. -/
theorem execToolCalls_length (calls : List ToolCall)
    (hok : ∀ tc ∈ calls, ∀ f, tools_lookup tc.name = some f →
      ∃ v, f tc.args.first_number tc.args.second_number = .ok v) :
    (calls.filterMap (fun tc =>
      (tools_lookup tc.name).bind (fun f =>
        match f tc.args.first_number tc.args.second_number with
        | .ok v => some (AgentMessage.toolMsg v.repr tc.id)
        | .error _ => none))).length =
    (calls.filter (fun tc => (tools_lookup tc.name).isSome)).length := by
  induction calls with
  | nil => rfl
  | cons tc rest ih =>
    have hrest : ∀ tc ∈ rest, ∀ f, tools_lookup tc.name = some f →
        ∃ v, f tc.args.first_number tc.args.second_number = .ok v :=
      fun tc h => hok tc (List.mem_cons_of_mem _ h)
    cases hl : tools_lookup tc.name with
    | none => simp [List.filterMap_cons, List.filter_cons, hl, ih hrest]
    | some f =>
      obtain ⟨v, hv⟩ := hok tc (List.mem_cons_self _ _) f hl
      simp [List.filterMap_cons, List.filter_cons, hl, hv, ih hrest]

/-- C10: `agent_tool_execution` silently skips every tool call of the last
message whose name is not in `tools_lookup` — no `ToolMessage` and no error
for it — and (when every recognized call succeeds) returns exactly one
`ToolMessage` per recognized call, keyed by that call's identifier, in call
order. -/
theorem agent_tool_execution_per_call (s : AgentWorkflowState)
    (last : AgentMessage) (hlast : s.messages.getLast? = some last)
    (hok : ∀ tc ∈ last.tool_calls, ∀ f, tools_lookup tc.name = some f →
      ∃ v, f tc.args.first_number tc.args.second_number = .ok v) :
    ∃ msgs, agent_tool_execution s = .ok msgs ∧
      msgs.length =
        (last.tool_calls.filter (fun tc => (tools_lookup tc.name).isSome)).length ∧
      msgs = last.tool_calls.filterMap (fun tc =>
        (tools_lookup tc.name).bind (fun f =>
          match f tc.args.first_number tc.args.second_number with
          | .ok v => some (AgentMessage.toolMsg v.repr tc.id)
          | .error _ => none)) := by
  refine ⟨_, ?_, execToolCalls_length last.tool_calls hok, rfl⟩
  rw [agent_tool_execution, hlast]
  exact execToolCalls_eq last.tool_calls hok

/-- Witness for C10: of three calls — `add_numbers(1, 2)`, an unrecognized
`subtract_numbers(5, 2)`, `multiply_numbers(3, 4)` — exactly the first and
third yield tool messages, in order, with no error. -/
theorem agent_tool_execution_per_call_witness :
    agent_tool_execution
        ⟨[AgentMessage.aiMsg ""
           [⟨"add_numbers", ⟨1, 2⟩, "a"⟩,
            ⟨"subtract_numbers", ⟨5, 2⟩, "b"⟩,
            ⟨"multiply_numbers", ⟨3, 4⟩, "c"⟩]]⟩ =
      .ok [AgentMessage.toolMsg "3" "a", AgentMessage.toolMsg "12" "c"] := by
  have hok10 : ∀ tc ∈ (AgentMessage.aiMsg ""
       [⟨"add_numbers", ⟨1, 2⟩, "a"⟩,
        ⟨"subtract_numbers", ⟨5, 2⟩, "b"⟩,
        ⟨"multiply_numbers", ⟨3, 4⟩, "c"⟩] : AgentMessage).tool_calls,
      ∀ f, tools_lookup tc.name = some f →
        ∃ v, f tc.args.first_number tc.args.second_number = .ok v := by
    intro tc htc f hf
    simp only [AgentMessage.tool_calls, List.mem_cons, List.not_mem_nil,
      or_false] at htc
    rcases htc with h | h | h
    all_goals subst h
    all_goals simp [tools_lookup] at hf
    · exact ⟨_, by rw [← hf]; rfl⟩
    · exact ⟨_, by rw [← hf]; rfl⟩
  obtain ⟨msgs, hexec, hlen, hmsgs⟩ := agent_tool_execution_per_call
    ⟨[AgentMessage.aiMsg ""
       [⟨"add_numbers", ⟨1, 2⟩, "a"⟩,
        ⟨"subtract_numbers", ⟨5, 2⟩, "b"⟩,
        ⟨"multiply_numbers", ⟨3, 4⟩, "c"⟩]]⟩
    (AgentMessage.aiMsg ""
       [⟨"add_numbers", ⟨1, 2⟩, "a"⟩,
        ⟨"subtract_numbers", ⟨5, 2⟩, "b"⟩,
        ⟨"multiply_numbers", ⟨3, 4⟩, "c"⟩])
    rfl hok10
  rw [hexec, hmsgs]
  rfl

end AgentWorkflow

/-- Witness for C9: concrete states with `joke_quality = "hilarious"` and
`routing_decision = "sonnet"` make both routers return `none` and dispatch
raise `RouterError`. -/
theorem routers_partial_outside_domain_witness :
    EvaluatorOptimizerWorkflow.route_joke_decision
        ⟨"Cats", "j", "fb", "hilarious"⟩ = none ∧
    RoutingWorkflow.decide_next_node ⟨"u", "sonnet", ""⟩ = none ∧
    resolveRoute EvaluatorOptimizerWorkflow.evaluator_route_map
      (EvaluatorOptimizerWorkflow.route_joke_decision
        ⟨"Cats", "j", "fb", "hilarious"⟩) = .error .routerError ∧
    resolveRoute RoutingWorkflow.routing_route_map
      (RoutingWorkflow.decide_next_node ⟨"u", "sonnet", ""⟩) = .error .routerError :=
  routers_partial_outside_domain ⟨"Cats", "j", "fb", "hilarious"⟩ ⟨"u", "sonnet", ""⟩
    (by decide) (by decide) (by decide) (by decide) (by decide)

end LanggraphWorkflows
